import Mathlib

/-
Verification development for the FINN tutorial-notebook repository.

The repository consists of two Jupyter notebooks:
  * the Brevitas-import notebook (src/unnamed/part_000), which loads a
    pretrained LFC-w1a1 model, exports it to FINN-ONNX, applies the
    InferShapes and FoldConstants cleanup transformations and compares the
    ONNX execution result to the PyTorch forward pass; and
  * notebooks/end2end_example/cybersecurity/3-build-accelerator-with-finn.ipynb,
    which configures and launches `build_dataflow` runs and inspects the
    JSON reports they produce.

This file embeds, faithfully to the sources:
  * the JSON read helper `read_json_dict` defined in cell-13 of the build
    notebook, together with a model of the Python `json` module used by it
    (a JSON value type, a serializer, and a parser);
  * the output-directory cleanup blocks
    (`if os.path.exists(d): shutil.rmtree(d)`) of cells 5, 19 and 33 of the
    build notebook, over a filesystem model that distinguishes regular
    files from directories, as `os.path.exists` and `shutil.rmtree` do;
  * the code cells of both notebooks: the API calls each cell makes, in
    order, whether it defines a function of its own, whether it contains an
    exception handler, and the numeric literals occurring in its source;
  * the three `DataflowBuildConfig` instances constructed in the build
    notebook (as the lists of fields each one sets);
  * the JSON report files whose contents the build notebook records
    (estimate_network_performance.json, estimate_layer_cycles.json,
    estimate_layer_resources.json, rtlsim_performance.json).
-/

/-! ## A model of the Python `json` module

Cell-13 of the build notebook defines

    def read_json_dict(filename):
        with open(filename, "r") as f:
            ret = json.load(f)
        return ret

`json.load` and `json.dump` belong to the Python standard library, so they
are modelled here: `Json` is the value type, `dumps` the (compact)
serialization, and `loads` the parser.  Numbers are modelled as integers.
-/

/-- Model of a Python/JSON value as handled by `json.load`: null, booleans,
numbers (modelled as integers), strings, arrays, and objects (dictionaries
with string keys, kept in insertion order as Python dictionaries are). -/
inductive Json where
  | null : Json
  | bool (b : Bool) : Json
  | num (n : Int) : Json
  | str (s : List Char) : Json
  | arr (elems : List Json) : Json
  | obj (members : List (List Char × Json)) : Json

/-- Serialization of one character inside a JSON string literal: the quote
and the backslash are escaped, every other character is emitted as is. -/
def escapeChar (c : Char) : List Char :=
  if c = '"' then ['\\', '"'] else if c = '\\' then ['\\', '\\'] else [c]

/-- Serialization of the body of a JSON string literal. -/
def escapeStr (s : List Char) : List Char :=
  s.foldr (fun c acc => escapeChar c ++ acc) []

/-- The decimal digit character for a value below ten. -/
def digitChar : Nat → Char
  | 0 => '0'
  | 1 => '1'
  | 2 => '2'
  | 3 => '3'
  | 4 => '4'
  | 5 => '5'
  | 6 => '6'
  | 7 => '7'
  | 8 => '8'
  | 9 => '9'
  | _ => '0'

/-- Decimal digit characters of a natural number, most significant first. -/
def natChars (n : Nat) : List Char :=
  if _h : n < 10 then [digitChar n]
  else natChars (n / 10) ++ [digitChar (n % 10)]
decreasing_by exact Nat.div_lt_self (by omega) (by omega)

/-- Decimal representation of an integer. -/
def intChars (n : Int) : List Char :=
  if n < 0 then '-' :: natChars n.natAbs else natChars n.toNat

/-- The keyword emitted for `null`. -/
def nullChars : List Char := ['n', 'u', 'l', 'l']

/-- The keyword emitted for `true`. -/
def trueChars : List Char := ['t', 'r', 'u', 'e']

/-- The keyword emitted for `false`. -/
def falseChars : List Char := ['f', 'a', 'l', 's', 'e']

mutual

/-- Compact JSON serialization of a value, as `json.dump` would produce it
(up to the optional whitespace after separators, which carries no data). -/
def dumps : Json → List Char
  | .null => nullChars
  | .bool b => if b then trueChars else falseChars
  | .num n => intChars n
  | .str s => '"' :: escapeStr s ++ ['"']
  | .arr es => '[' :: dumpsArr es
  | .obj ms => '\x7b' :: dumpsObj ms

/-- Serialization of the elements of an array, including the closing
bracket. -/
def dumpsArr : List Json → List Char
  | [] => [']']
  | [e] => dumps e ++ [']']
  | e :: es => dumps e ++ ',' :: dumpsArr es

/-- Serialization of the members of an object, including the closing
brace. -/
def dumpsObj : List (List Char × Json) → List Char
  | [] => ['\x7d']
  | [(k, v)] => '"' :: escapeStr k ++ '"' :: ':' :: dumps v ++ ['\x7d']
  | (k, v) :: ms => '"' :: escapeStr k ++ '"' :: ':' :: dumps v ++ ',' :: dumpsObj ms

end

/-- The numeric value of a decimal digit character. -/
def digitVal (c : Char) : Nat := c.toNat - 48

/-- Does the input begin with a decimal digit? -/
def digitStart : List Char → Bool
  | [] => false
  | c :: _ => c.isDigit

/-- Accumulating parser for a run of decimal digits. -/
def parseDigitsAux : Nat → List Char → Nat × List Char
  | acc, [] => (acc, [])
  | acc, c :: rest =>
    if c.isDigit then parseDigitsAux (acc * 10 + digitVal c) rest else (acc, c :: rest)

/-- Parser for a nonempty run of decimal digits. -/
def parseNat0 : List Char → Option (Nat × List Char)
  | [] => none
  | c :: rest => if c.isDigit then some (parseDigitsAux 0 (c :: rest)) else none

/-- Parser for the body of a JSON string literal, after the opening quote:
consumes up to and including the closing quote, undoing the escapes that
`escapeChar` produces. -/
def parseStrBody : List Char → Option (List Char × List Char)
  | [] => none
  | c :: rest =>
    if c = '"' then some ([], rest)
    else if c = '\\' then
      match rest with
      | [] => none
      | c2 :: rest2 =>
        if c2 = '"' || c2 = '\\' then
          (parseStrBody rest2).map (fun p => (c2 :: p.1, p.2))
        else none
    else (parseStrBody rest).map (fun p => (c :: p.1, p.2))

/-- Parsing mode of `parseCore`: a single value, the tail of an array
(elements up to and including the closing bracket), or the tail of an
object (members up to and including the closing brace). -/
inductive PMode where
  | val : PMode
  | arrTail : PMode
  | objTail : PMode

/-- Fuel-indexed JSON parser.  In mode `.val` it parses one JSON value; in
mode `.arrTail` it parses the remainder of an array and returns it as
`Json.arr`; in mode `.objTail` it parses the remainder of an object and
returns it as `Json.obj`. -/
def parseCore : Nat → PMode → List Char → Option (Json × List Char)
  | 0, _, _ => none
  | _ + 1, _, [] => none
  | fuel + 1, .val, c :: rest =>
    if c.isDigit then
      (parseNat0 (c :: rest)).map (fun p => (Json.num (p.1 : Int), p.2))
    else if c = '-' then
      (parseNat0 rest).map (fun p => (Json.num (-(p.1 : Int)), p.2))
    else if c = '"' then
      (parseStrBody rest).map (fun p => (Json.str p.1, p.2))
    else if c = '[' then
      parseCore fuel .arrTail rest
    else if c = '\x7b' then
      parseCore fuel .objTail rest
    else if c = 'n' then
      match rest with
      | 'u' :: 'l' :: 'l' :: r => some (Json.null, r)
      | _ => none
    else if c = 't' then
      match rest with
      | 'r' :: 'u' :: 'e' :: r => some (Json.bool true, r)
      | _ => none
    else if c = 'f' then
      match rest with
      | 'a' :: 'l' :: 's' :: 'e' :: r => some (Json.bool false, r)
      | _ => none
    else none
  | fuel + 1, .arrTail, c :: rest =>
    if c = ']' then some (Json.arr [], rest)
    else
      match parseCore fuel .val (c :: rest) with
      | none => none
      | some (v, r2) =>
        match r2 with
        | ',' :: r3 =>
          match parseCore fuel .arrTail r3 with
          | some (Json.arr es, r4) => some (Json.arr (v :: es), r4)
          | _ => none
        | ']' :: r3 => some (Json.arr [v], r3)
        | _ => none
  | fuel + 1, .objTail, c :: rest =>
    if c = '\x7d' then some (Json.obj [], rest)
    else if c = '"' then
      match parseStrBody rest with
      | none => none
      | some (k, r2) =>
        match r2 with
        | ':' :: r3 =>
          match parseCore fuel .val r3 with
          | none => none
          | some (v, r4) =>
            match r4 with
            | ',' :: r5 =>
              match parseCore fuel .objTail r5 with
              | some (Json.obj ms, r6) => some (Json.obj ((k, v) :: ms), r6)
              | _ => none
            | '\x7d' :: r5 => some (Json.obj [(k, v)], r5)
            | _ => none
        | _ => none
    else none

/-- Model of `json.load`: parse the whole input as one JSON value, with no
data allowed after it. -/
def loads (input : List Char) : Option Json :=
  match parseCore (input.length + 1) .val input with
  | some (v, []) => some v
  | _ => none

mutual

/-- Fuel sufficient for `parseCore` to parse the serialization of a
value. -/
def fuelNeeded : Json → Nat
  | .arr es => 1 + fuelArr es
  | .obj ms => 1 + fuelObj ms
  | _ => 1

/-- Fuel sufficient for `parseCore` in mode `.arrTail` on a serialized
array tail. -/
def fuelArr : List Json → Nat
  | [] => 1
  | [e] => 1 + fuelNeeded e
  | e :: es => 1 + fuelNeeded e + fuelArr es

/-- Fuel sufficient for `parseCore` in mode `.objTail` on a serialized
object tail. -/
def fuelObj : List (List Char × Json) → Nat
  | [] => 1
  | [(_, v)] => 1 + fuelNeeded v
  | (_, v) :: ms => 1 + fuelNeeded v + fuelObj ms

end

/-- Numbers parse greedily, so the serialization of a number must not be
followed directly by another digit; every other value is delimited by its
own closing character.  This is the side condition of the round-trip
lemma, and it holds at every position where `dumps` places a value. -/
def numOk : Json → List Char → Bool
  | .num _, rest => !digitStart rest
  | _, _ => true

/-! ## The `read_json_dict` helper (build notebook, cell-13) -/

/-- Model of a text filesystem for `read_json_dict`: each filename either
holds a character sequence or is absent. -/
def TextFS : Type := String → Option (List Char)

/-- Embedding of cell-13 of the build notebook:

    def read_json_dict(filename):
        with open(filename, "r") as f:
            ret = json.load(f)
        return ret

The function opens the file in mode `"r"` (read only) and returns the value
parsed by `json.load`.  The first component of the result is the filesystem
after the call; the body performs no write, so it is the input filesystem. -/
def read_json_dict (fs : TextFS) (filename : String) : TextFS × Option Json :=
  (fs, (fs filename).bind loads)

/-! ## The output-directory cleanup blocks (build notebook, cells 5, 19, 33)

Each of the three build cells begins with

    if os.path.exists(some_output_dir):
        shutil.rmtree(some_output_dir)
        print("Previous run results deleted!")

`os.path.exists` and `shutil.rmtree` are Python standard library calls, so
their semantics is modelled: a path may be absent, a regular file, or a
directory; `os.path.exists` is true for files and directories alike, and
`shutil.rmtree` removes a directory tree but raises (`NotADirectoryError`
or `FileNotFoundError`, modelled as `none`) when the path is not a
directory. -/

/-- What a filesystem path can hold: a regular file or a directory. -/
inductive FsNode where
  | file : FsNode
  | dir : FsNode
deriving DecidableEq

/-- A path, as a list of components. -/
abbrev FsPath : Type := List String

/-- A filesystem for the cleanup blocks: each path is absent or holds a
node. -/
def DirFS : Type := FsPath → Option FsNode

/-- Model of `os.path.exists`: true when the path refers to an existing
file or directory. -/
def os_path_exists (fs : DirFS) (p : FsPath) : Bool :=
  (fs p).isSome

/-- Is `q` equal to `p` or inside the directory tree rooted at `p`? -/
def underPath (p q : FsPath) : Bool :=
  p.isPrefixOf q

/-- Model of `shutil.rmtree`: deletes the entire directory tree rooted at
the path.  If the path does not refer to a directory (it is absent, or it
is a regular file), the call raises — `FileNotFoundError` or
`NotADirectoryError` — which is modelled as `none`. -/
def shutil_rmtree (fs : DirFS) (p : FsPath) : Option DirFS :=
  match fs p with
  | some .dir => some (fun q => if underPath p q then none else fs q)
  | _ => none

/-- Embedding of the cleanup block
`if os.path.exists(d): shutil.rmtree(d)` that opens cells 5, 19 and 33 of
the build notebook (`none` models an uncaught exception). -/
def cleanupBlock (fs : DirFS) (p : FsPath) : Option DirFS :=
  if os_path_exists fs p then shutil_rmtree fs p else some fs

/-! ## The code cells of the two notebooks

Each code cell is transcribed as: the API calls its source makes (in
textual order), the modules its `import`/`from … import` statements name,
whether it defines a Python function of its own (`def`), whether it
contains a `try`/`except` handler, whether it uses `async`/`await`, whether
it shows a `build_dataflow_cfg` invocation together with that invocation's
recorded console output, whether that recorded output contains the line
"Completed successfully", and the numeric literals occurring in its
source. -/

/-- The API calls made by the notebook cells, named after the functions the
source calls. -/
inductive ApiCall where
  | showSrc : ApiCall
  | showInNetron : ApiCall
  | get_test_model : ApiCall
  | pkgutil_get_data : ApiCall
  | onnx_load_tensor_from_string : ApiCall
  | nph_to_array : ApiCall
  | torch_from_numpy : ApiCall
  | plt_imshow : ApiCall
  | plt_bar : ApiCall
  | plt_xticks : ApiCall
  | plt_ylabel : ApiCall
  | plt_title : ApiCall
  | plt_show : ApiCall
  | lfc_forward : ApiCall
  | torch_softmax : ApiCall
  | np_arange : ApiCall
  | export_finn_onnx : ApiCall
  | modelWrapper_init : ApiCall
  | get_initializer : ApiCall
  | get_tensor_datatype : ApiCall
  | get_tensor_shape : ApiCall
  | transform_InferShapes : ApiCall
  | transform_FoldConstants : ApiCall
  | model_save : ApiCall
  | execute_onnx : ApiCall
  | np_isclose : ApiCall
  | display_value : ApiCall
  | os_path_exists_chk : ApiCall
  | shutil_rmtree_del : ApiCall
  | print_stmt : ApiCall
  | dataflowBuildConfig_init : ApiCall
  | build_dataflow_cfg_run : ApiCall
  | shell_ls : ApiCall
  | shell_cat : ApiCall
  | read_json_dict_call : ApiCall
deriving DecidableEq

/-- Calls into the external libraries the spec names (FINN, Brevitas,
PyTorch, ONNX, numpy, and the Python loaders feeding them): model loading
and export, shape inference and constant folding, model inspection,
execution, and the FINN build entry points. -/
def externalLibCall : ApiCall → Bool
  | .get_test_model => true
  | .pkgutil_get_data => true
  | .onnx_load_tensor_from_string => true
  | .nph_to_array => true
  | .torch_from_numpy => true
  | .lfc_forward => true
  | .torch_softmax => true
  | .np_arange => true
  | .export_finn_onnx => true
  | .modelWrapper_init => true
  | .get_initializer => true
  | .get_tensor_datatype => true
  | .get_tensor_shape => true
  | .transform_InferShapes => true
  | .transform_FoldConstants => true
  | .model_save => true
  | .execute_onnx => true
  | .np_isclose => true
  | .dataflowBuildConfig_init => true
  | .build_dataflow_cfg_run => true
  | _ => false

/-- Calls that print or visualize results: source/Netron display,
matplotlib plotting, Jupyter rendering of a cell's last expression,
`print`, the `!`-escapes that list or dump the produced report files, and
the `read_json_dict` invocations that display a JSON report. -/
def printsOrVisualizesCall : ApiCall → Bool
  | .showSrc => true
  | .showInNetron => true
  | .plt_imshow => true
  | .plt_bar => true
  | .plt_xticks => true
  | .plt_ylabel => true
  | .plt_title => true
  | .plt_show => true
  | .display_value => true
  | .print_stmt => true
  | .shell_ls => true
  | .shell_cat => true
  | .read_json_dict_call => true
  | _ => false

/-- Calls whose effect is to mutate the filesystem outside of any external
toolchain invocation: the guarded `shutil.rmtree` directory deletion. -/
def fsMutatingCall : ApiCall → Bool
  | .shutil_rmtree_del => true
  | _ => false

/-- Calls that create an operating-system subprocess of the notebook's
own: the Jupyter `!` shell escapes, which run their command line in a
subshell (and block until it exits). -/
def spawnsSubprocessCall : ApiCall → Bool
  | .shell_ls => true
  | .shell_cat => true
  | _ => false

/-- Transcription of one code cell. -/
structure Cell where
  id : String
  calls : List ApiCall
  imports : List String
  definesFunction : Bool
  hasTryExcept : Bool
  usesAsync : Bool
  showsBuildInvocation : Bool
  outputCompletedSuccessfully : Bool
  srcNumerals : List String
deriving DecidableEq

/-- A cell with no imports, no definitions, no handlers and no build
output, holding only the given calls and numerals. -/
def plainCell (id : String) (calls : List ApiCall) (srcNumerals : List String) : Cell :=
  { id := id, calls := calls, imports := [], definesFunction := false,
    hasTryExcept := false, usesAsync := false, showsBuildInvocation := false,
    outputCompletedSuccessfully := false, srcNumerals := srcNumerals }

/-! ### Import notebook (src/unnamed/part_000), code cells in order -/

/-- Cell 1: `import onnx` and `from finn.util.visualization import showSrc,
showInNetron`. -/
def impCell1 : Cell :=
  { plainCell "imp-1" [] [] with imports := ["onnx", "finn.util.visualization"] }

/-- Cell 2: `from brevitas_examples import bnn_pynq` and
`showSrc(bnn_pynq.models.FC)`. -/
def impCell2 : Cell :=
  { plainCell "imp-2" [.showSrc] [] with imports := ["brevitas_examples"] }

/-- Cell 3: `from finn.util.test import get_test_model`, then
`lfc = get_test_model(netname = "LFC", wbits = 1, abits = 1, pretrained = True)`
and the display of `lfc`. -/
def impCell3 : Cell :=
  { plainCell "imp-3" [.get_test_model, .display_value] ["1", "1"] with
    imports := ["finn.util.test"] }

/-- Cell 4: loads the packaged MNIST input protobuf via
`get_data`/`onnx.load_tensor_from_string`/`nph.to_array`, converts it with
`torch.from_numpy`, and shows it with `plt.imshow(... .reshape(28,28) ...)`. -/
def impCell4 : Cell :=
  { plainCell "imp-4"
      [.pkgutil_get_data, .onnx_load_tensor_from_string, .nph_to_array,
        .torch_from_numpy, .plt_imshow] ["28", "28"] with
    imports := ["torch", "matplotlib.pyplot", "pkgutil", "onnx", "onnx.numpy_helper"] }

/-- Cell 5: `produced = lfc.forward(input_tensor_pyt).detach()`,
`probabilities = softmax(produced, dim=-1).flatten()`, display of
`probabilities`. -/
def impCell5 : Cell :=
  { plainCell "imp-5" [.lfc_forward, .torch_softmax, .display_value] ["-1"] with
    imports := ["torch.nn.functional"] }

/-- Cell 6: bar chart of the predicted probabilities (`np.arange`,
`plt.bar(..., alpha=0.5)`, `plt.xticks`, `plt.ylabel`, `plt.title`,
`plt.show`; `range(10)`). -/
def impCell6 : Cell :=
  { plainCell "imp-6"
      [.np_arange, .plt_bar, .plt_xticks, .plt_ylabel, .plt_title, .plt_show]
      ["10", "0.5"] with
    imports := ["numpy"] }

/-- Cell 7: `import brevitas.onnx as bo`, `input_shape = (1, 1, 28, 28)` and
`bo.export_finn_onnx(lfc, input_shape, export_onnx_path)`. -/
def impCell7 : Cell :=
  { plainCell "imp-7" [.export_finn_onnx] ["1", "1", "28", "28"] with
    imports := ["brevitas.onnx"] }

/-- Cell 8: `showInNetron('/tmp/LFCW1A1.onnx')`. -/
def impCell8 : Cell := plainCell "imp-8" [.showInNetron] []

/-- Cell 9: `from finn.core.modelwrapper import ModelWrapper`,
`model = ModelWrapper(export_onnx_path)` and display of `model.graph.node[8]`. -/
def impCell9 : Cell :=
  { plainCell "imp-9" [.modelWrapper_init, .display_value] ["8"] with
    imports := ["finn.core.modelwrapper"] }

/-- Cell 10: display of `model.get_initializer(model.graph.node[8].input[1])`. -/
def impCell10 : Cell := plainCell "imp-10" [.get_initializer, .display_value] ["8", "1"]

/-- Cell 11: display of
`model.get_tensor_datatype(model.graph.node[8].input[1]).name`. -/
def impCell11 : Cell := plainCell "imp-11" [.get_tensor_datatype, .display_value] ["8", "1"]

/-- Cell 12: display of `model.get_tensor_shape(model.graph.node[8].input[1])`. -/
def impCell12 : Cell := plainCell "imp-12" [.get_tensor_shape, .display_value] ["8", "1"]

/-- Cell 13: `model = model.transform(InferShapes())`, then
`model = model.transform(FoldConstants())`, then
`model.save(export_onnx_path_transformed)`. -/
def impCell13 : Cell :=
  { plainCell "imp-13" [.transform_InferShapes, .transform_FoldConstants, .model_save] [] with
    imports := ["finn.transformation.fold_constants", "finn.transformation.infer_shapes"] }

/-- Cell 14: `showInNetron('/tmp/LFCW1A1-clean.onnx')`. -/
def impCell14 : Cell := plainCell "imp-14" [.showInNetron] []

/-- Cell 15: `import finn.core.onnx_exec as oxe`,
`input_dict = ... `, `output_dict = oxe.execute_onnx(model, input_dict)`,
`produced_finn = output_dict[list(output_dict.keys())[0]]`, display of
`produced_finn`. -/
def impCell15 : Cell :=
  { plainCell "imp-15" [.execute_onnx, .display_value] ["0"] with
    imports := ["finn.core.onnx_exec"] }

/-- Cell 16: display of `np.isclose(produced, produced_finn).all()`. -/
def impCell16 : Cell := plainCell "imp-16" [.np_isclose, .display_value] []

/-- The code cells of the import notebook, in notebook order. -/
def importCells : List Cell :=
  [impCell1, impCell2, impCell3, impCell4, impCell5, impCell6, impCell7, impCell8,
    impCell9, impCell10, impCell11, impCell12, impCell13, impCell14, impCell15, impCell16]

/-! ### Build notebook (3-build-accelerator-with-finn.ipynb), code cells in
order, named by their `cell-N` ids -/

/-- Cell-5: imports, the `estimates_output_dir` cleanup block
(`if os.path.exists(...): shutil.rmtree(...); print(...)`) and the
`cfg_estimates = build.DataflowBuildConfig(... mvau_wwidth_max = 80,
target_fps = 1000000, synth_clk_period_ns = 10.0 ...)` construction. -/
def bCell5 : Cell :=
  { plainCell "cell-5"
      [.os_path_exists_chk, .shutil_rmtree_del, .print_stmt, .dataflowBuildConfig_init]
      ["80", "1000000", "10.0"] with
    imports := ["finn.builder.build_dataflow", "finn.builder.build_dataflow_config",
      "os", "shutil"] }

/-- Cell-6: `%%time` and `build.build_dataflow_cfg(model_file, cfg_estimates)`;
its recorded output runs through steps 1/7 … 7/7 and ends with
"Completed successfully". -/
def bCell6 : Cell :=
  { plainCell "cell-6" [.build_dataflow_cfg_run] [] with
    showsBuildInvocation := true, outputCompletedSuccessfully := true }

/-- Cell-8: `! ls {estimates_output_dir}`. -/
def bCell8 : Cell := plainCell "cell-8" [.shell_ls] []

/-- Cell-9: `! ls {estimates_output_dir}/report`. -/
def bCell9 : Cell := plainCell "cell-9" [.shell_ls] []

/-- Cell-11: `! cat {estimates_output_dir}/report/estimate_network_performance.json`. -/
def bCell11 : Cell := plainCell "cell-11" [.shell_cat] []

/-- Cell-13: `import json` and the definition of `read_json_dict` — the only
function the two notebooks define. -/
def bCell13 : Cell :=
  { plainCell "cell-13" [] [] with imports := ["json"], definesFunction := true }

/-- Cell-14: display of
`read_json_dict(estimates_output_dir + "/report/estimate_layer_cycles.json")`. -/
def bCell14 : Cell := plainCell "cell-14" [.read_json_dict_call, .display_value] []

/-- Cell-16: display of
`read_json_dict(estimates_output_dir + "/report/estimate_layer_resources.json")`. -/
def bCell16 : Cell := plainCell "cell-16" [.read_json_dict_call, .display_value] []

/-- Cell-19: imports, the `rtlsim_output_dir` cleanup block and the
`cfg_stitched_ip = build.DataflowBuildConfig(...)` construction (same field
values as cell-5 except the `steps` field is left at its default). -/
def bCell19 : Cell :=
  { plainCell "cell-19"
      [.os_path_exists_chk, .shutil_rmtree_del, .print_stmt, .dataflowBuildConfig_init]
      ["80", "1000000", "10.0"] with
    imports := ["finn.builder.build_dataflow", "finn.builder.build_dataflow_config",
      "os", "shutil"] }

/-- Cell-20: `%%time` and `build.build_dataflow_cfg(model_file, cfg_stitched_ip)`;
its recorded output runs through steps 1/16 … 16/16 and ends with
"Completed successfully". -/
def bCell20 : Cell :=
  { plainCell "cell-20" [.build_dataflow_cfg_run] [] with
    showsBuildInvocation := true, outputCompletedSuccessfully := true }

/-- Cell-23: `! ls {rtlsim_output_dir}/stitched_ip`. -/
def bCell23 : Cell := plainCell "cell-23" [.shell_ls] []

/-- Cell-25: `! ls {rtlsim_output_dir}/report`. -/
def bCell25 : Cell := plainCell "cell-25" [.shell_ls] []

/-- Cell-27: `! cat {rtlsim_output_dir}/report/ooc_synth_and_timing.json`. -/
def bCell27 : Cell := plainCell "cell-27" [.shell_cat] []

/-- Cell-29: `! cat {rtlsim_output_dir}/report/rtlsim_performance.json`. -/
def bCell29 : Cell := plainCell "cell-29" [.shell_cat] []

/-- Cell-31: `! cat {rtlsim_output_dir}/final_hw_config.json`. -/
def bCell31 : Cell := plainCell "cell-31" [.shell_cat] []

/-- Cell-33: imports, the `final_output_dir` cleanup block and the
`cfg = build.DataflowBuildConfig(... board = "Pynq-Z1",
shell_flow_type = build_cfg.ShellFlowType.VIVADO_ZYNQ ...)` construction. -/
def bCell33 : Cell :=
  { plainCell "cell-33"
      [.os_path_exists_chk, .shutil_rmtree_del, .print_stmt, .dataflowBuildConfig_init]
      ["80", "1000000", "10.0"] with
    imports := ["finn.builder.build_dataflow", "finn.builder.build_dataflow_config",
      "os", "shutil"] }

/-- Cell-34: the commented-out `#build.build_dataflow_cfg(model_file, cfg)`
invocation, shown with the recorded output of the run (steps 1/16 … 16/16,
ending with "Completed successfully"). -/
def bCell34 : Cell :=
  { plainCell "cell-34" [] [] with
    showsBuildInvocation := true, outputCompletedSuccessfully := true }

/-- Cell-36: commented-out `#! ls {final_output_dir}/bitfile`. -/
def bCell36 : Cell := plainCell "cell-36" [] []

/-- Cell-38: commented-out `#! ls {final_output_dir}/driver`. -/
def bCell38 : Cell := plainCell "cell-38" [] []

/-- Cell-40: commented-out `#! ls {final_output_dir}/report`. -/
def bCell40 : Cell := plainCell "cell-40" [] []

/-- Cell-42: commented-out `#! ls {final_output_dir}/deploy`. -/
def bCell42 : Cell := plainCell "cell-42" [] []

/-- Cell-44: commented-out `#! cp unsw_nb15_binarized.npz ...`. -/
def bCell44 : Cell := plainCell "cell-44" [] []

/-- Cell-45: commented-out `#! cp validate-unsw-nb15.py ...`. -/
def bCell45 : Cell := plainCell "cell-45" [] []

/-- Cell-46: commented-out `#! ls {final_output_dir}/deploy/driver`. -/
def bCell46 : Cell := plainCell "cell-46" [] []

/-- Cell-47: commented-out `#from shutil import make_archive` and
`#make_archive('deploy-on-pynq', 'zip', ...)`. -/
def bCell47 : Cell := plainCell "cell-47" [] []

/-- Cell-54: empty code cell. -/
def bCell54 : Cell := plainCell "cell-54" [] []

/-- The code cells of the build notebook, in notebook order. -/
def buildCells : List Cell :=
  [bCell5, bCell6, bCell8, bCell9, bCell11, bCell13, bCell14, bCell16, bCell19, bCell20,
    bCell23, bCell25, bCell27, bCell29, bCell31, bCell33, bCell34, bCell36, bCell38,
    bCell40, bCell42, bCell44, bCell45, bCell46, bCell47, bCell54]

/-- All code cells of the material. -/
def allCells : List Cell := importCells ++ buildCells

/-- The API calls of a list of cells, flattened in execution order. -/
def callSeq (cs : List Cell) : List ApiCall :=
  cs.foldr (fun c acc => c.calls ++ acc) []

/-- Index of the first occurrence of a call in a sequence (length of the
sequence when absent). -/
def posOf (a : ApiCall) : List ApiCall → Nat
  | [] => 0
  | b :: rest => if a = b then 0 else posOf a rest + 1

/-- Number of occurrences of a call in a sequence. -/
def countOf (a : ApiCall) : List ApiCall → Nat
  | [] => 0
  | b :: rest => (if a = b then 1 else 0) + countOf a rest

/-! ## The `DataflowBuildConfig` instances (build notebook, cells 5, 19, 33)

The spec describes the configuration object as having recognized fields:
output directory, target frames-per-second, synthesis clock period, target
FPGA part/board, selected output-product list, and build-step list.  Each
configuration constructed in the notebook is transcribed as the list of
fields its constructor call sets. -/

/-- The `DataflowBuildConfig` fields that appear in the material. -/
inductive CfgField where
  | output_dir : CfgField
  | mvau_wwidth_max : CfgField
  | target_fps : CfgField
  | synth_clk_period_ns : CfgField
  | fpga_part : CfgField
  | board : CfgField
  | shell_flow_type : CfgField
  | steps : CfgField
  | generate_outputs : CfgField
deriving DecidableEq

/-- The configuration fields the spec lists as recognized: output
directory, target frames-per-second, synthesis clock period, target FPGA
part/board, selected output-product list, and build-step list. -/
def recognizedFields : List CfgField :=
  [.output_dir, .target_fps, .synth_clk_period_ns, .fpga_part, .board,
    .generate_outputs, .steps]

/-- Fields set by `cfg_estimates` (cell-5): output_dir =
"output_estimates_only", mvau_wwidth_max = 80, target_fps = 1000000,
synth_clk_period_ns = 10.0, fpga_part = "xc7z020clg400-1", steps =
estimate_only_dataflow_steps, generate_outputs = [ESTIMATE_REPORTS]. -/
def cfg_estimates_fields : List CfgField :=
  [.output_dir, .mvau_wwidth_max, .target_fps, .synth_clk_period_ns, .fpga_part,
    .steps, .generate_outputs]

/-- Fields set by `cfg_stitched_ip` (cell-19): output_dir =
"output_ipstitch_ooc_rtlsim", mvau_wwidth_max = 80, target_fps = 1000000,
synth_clk_period_ns = 10.0, fpga_part = "xc7z020clg400-1",
generate_outputs = [STITCHED_IP, RTLSIM_PERFORMANCE, OOC_SYNTH]. -/
def cfg_stitched_ip_fields : List CfgField :=
  [.output_dir, .mvau_wwidth_max, .target_fps, .synth_clk_period_ns, .fpga_part,
    .generate_outputs]

/-- Fields set by `cfg` (cell-33): output_dir = "output_final",
mvau_wwidth_max = 80, target_fps = 1000000, synth_clk_period_ns = 10.0,
board = "Pynq-Z1", shell_flow_type = ShellFlowType.VIVADO_ZYNQ,
generate_outputs = [BITFILE, PYNQ_DRIVER, DEPLOYMENT_PACKAGE]. -/
def cfg_final_fields : List CfgField :=
  [.output_dir, .mvau_wwidth_max, .target_fps, .synth_clk_period_ns, .board,
    .shell_flow_type, .generate_outputs]

/-- The field lists of the three configurations constructed in the
material. -/
def allConfigFieldLists : List (List CfgField) :=
  [cfg_estimates_fields, cfg_stitched_ip_fields, cfg_final_fields]

/-! ## The JSON report files whose contents the notebook records

The values are transcribed verbatim from the recorded cell outputs, as
strings, so that integer and fractional figures alike are carried
exactly. -/

/-- The four `StreamingFCLayer_Batch` layers of the cybersecurity MLP, as
named throughout the recorded reports. -/
def streamingLayers : List String :=
  ["StreamingFCLayer_Batch_0", "StreamingFCLayer_Batch_1",
    "StreamingFCLayer_Batch_2", "StreamingFCLayer_Batch_3"]

/-- Contents of `estimate_network_performance.json` as displayed by
cell-11 of the build notebook. -/
def estimate_network_performance : List (String × String) :=
  [("critical_path_cycles", "252"),
    ("max_cycles", "64"),
    ("max_cycles_node_name", "StreamingFCLayer_Batch_1"),
    ("estimated_throughput_fps", "1562500.0"),
    ("estimated_latency_ns", "2520.0")]

/-- Contents of `estimate_layer_cycles.json` as displayed by cell-14 of
the build notebook. -/
def estimate_layer_cycles : List (String × Nat) :=
  [("StreamingFCLayer_Batch_0", 60),
    ("StreamingFCLayer_Batch_1", 64),
    ("StreamingFCLayer_Batch_2", 64),
    ("StreamingFCLayer_Batch_3", 64)]

/-- Contents of `estimate_layer_resources.json` as displayed by cell-16 of
the build notebook. -/
def estimate_layer_resources : List (String × List (String × String)) :=
  [("StreamingFCLayer_Batch_0",
    [("BRAM_18K", "36"), ("BRAM_efficiency", "0.11574074074074074"),
      ("LUT", "8184"), ("URAM", "0"), ("URAM_efficiency", "1"), ("DSP", "0")]),
    ("StreamingFCLayer_Batch_1",
    [("BRAM_18K", "4"), ("BRAM_efficiency", "0.1111111111111111"),
      ("LUT", "1217"), ("URAM", "0"), ("URAM_efficiency", "1"), ("DSP", "0")]),
    ("StreamingFCLayer_Batch_2",
    [("BRAM_18K", "4"), ("BRAM_efficiency", "0.1111111111111111"),
      ("LUT", "1217"), ("URAM", "0"), ("URAM_efficiency", "1"), ("DSP", "0")]),
    ("StreamingFCLayer_Batch_3",
    [("BRAM_18K", "1"), ("BRAM_efficiency", "0.006944444444444444"),
      ("LUT", "341"), ("URAM", "0"), ("URAM_efficiency", "1"), ("DSP", "0")]),
    ("total",
    [("BRAM_18K", "45.0"), ("LUT", "10959.0"), ("URAM", "0.0"), ("DSP", "0.0")])]

/-- Contents of `rtlsim_performance.json` as displayed by cell-29 of the
build notebook. -/
def rtlsim_performance : List (String × String) :=
  [("cycles", "643"),
    ("runtime[ms]", "0.00643"),
    ("throughput[images/s]", "1088646.967340591"),
    ("DRAM_in_bandwidth[Mb/s]", "81.64852255054431"),
    ("DRAM_out_bandwidth[Mb/s]", "0.13608087091757387"),
    ("fclk[mhz]", "100.0"),
    ("N", "7"),
    ("latency_cycles", "211")]

/-! ## Claim-level predicates and fixtures -/

/-- The property C1 asserts of a single cell: every call is an
external-library call or a print/visualization, and the cell defines no
function of its own. -/
def cellFollowsSpecText (c : Cell) : Bool :=
  c.calls.all (fun a => externalLibCall a || printsOrVisualizesCall a) &&
  !c.definesFunction &&
  c.calls.all (fun a => !fsMutatingCall a)

/-- Python standard-library modules whose import would introduce threads,
subprocesses or asynchronous tasks. -/
def concurrencyModules : List String :=
  ["threading", "multiprocessing", "asyncio", "concurrent.futures", "subprocess"]

/-- The property C7 asserts of a single cell: no concurrency-related
import, no `async`/`await`, and no call that creates a subprocess. -/
def cellConcurrencyFree (c : Cell) : Bool :=
  c.imports.all (fun m => !(concurrencyModules.contains m)) &&
  !c.usesAsync &&
  c.calls.all (fun a => !spawnsSubprocessCall a)

/-- A one-entry dictionary used as the concrete witness input for the
`read_json_dict` round trip. -/
def witnessDict : List (List Char × Json) :=
  [(['m', 'a', 'x', '_', 'c', 'y', 'c', 'l', 'e', 's'], Json.num 64)]

/-- A filesystem holding the serialization of `witnessDict` under one
report filename. -/
def witnessFS : TextFS :=
  fun n => if n = "report.json" then some (dumps (Json.obj witnessDict)) else none

/-- A filesystem in which the path `output_estimates_only` is occupied by a
regular file rather than a directory. -/
def fileAtOutputDir : DirFS :=
  fun q => if q = ["output_estimates_only"] then some FsNode.file else none

/-- A filesystem in which the path `output_estimates_only` is a directory
left behind by a previous run. -/
def dirAtOutputDir : DirFS :=
  fun q => if q = ["output_estimates_only"] then some FsNode.dir else none

theorem digitChar_isDigit (d : Nat) : (digitChar d).isDigit = true := by
  rcases d with _ | _ | _ | _ | _ | _ | _ | _ | _ | _ | d
  all_goals first
  | decide
  | (show ('0').isDigit = true; decide)

theorem digitVal_digitChar (d : Nat) (h : d < 10) : digitVal (digitChar d) = d := by
  rcases d with _ | _ | _ | _ | _ | _ | _ | _ | _ | _ | d
  all_goals first
  | decide
  | omega

theorem isDigit_ne (c a : Char) (h : c.isDigit = true) (ha : a.isDigit = false) : c ≠ a := by
  intro hc
  rw [hc, ha] at h
  exact Bool.false_ne_true h

theorem natChars_shape (m : Nat) : ∃ d t, natChars m = digitChar d :: t := by
  induction m using Nat.strong_induction_on with
  | _ m ih =>
    by_cases h : m < 10
    · exact ⟨m, [], by rw [natChars]; simp [h]⟩
    · obtain ⟨d, t, hd⟩ := ih (m / 10) (Nat.div_lt_self (by omega) (by omega))
      refine ⟨d, t ++ [digitChar (m % 10)], ?_⟩
      rw [natChars]
      simp [h, hd]

theorem parseDigitsAux_cons (acc : Nat) (c : Char) (t : List Char) (h : c.isDigit = true) :
    parseDigitsAux acc (c :: t) = parseDigitsAux (acc * 10 + digitVal c) t := by
  rw [parseDigitsAux.eq_def]
  simp [h]

theorem parseDigitsAux_stop (acc : Nat) (rest : List Char) (h : digitStart rest = false) :
    parseDigitsAux acc rest = (acc, rest) := by
  cases rest with
  | nil => rfl
  | cons c t =>
    simp only [digitStart] at h
    rw [parseDigitsAux.eq_def]
    simp [h]

theorem parseDigitsAux_natChars (m : Nat) :
    ∀ acc rest, parseDigitsAux acc (natChars m ++ rest) =
      parseDigitsAux (acc * 10 ^ (natChars m).length + m) rest := by
  induction m using Nat.strong_induction_on with
  | _ m ih =>
    intro acc rest
    by_cases h : m < 10
    · rw [natChars]
      simp only [h, dite_true, List.singleton_append, List.length_singleton]
      rw [parseDigitsAux_cons _ _ _ (digitChar_isDigit m), digitVal_digitChar m h, pow_one]
    · rw [natChars]
      simp only [h, dite_false, List.append_assoc, List.singleton_append, List.length_append,
        List.length_singleton]
      rw [ih (m / 10) (Nat.div_lt_self (by omega) (by omega)),
        parseDigitsAux_cons _ _ _ (digitChar_isDigit (m % 10)),
        digitVal_digitChar _ (Nat.mod_lt _ (by omega))]
      congr 1
      rw [pow_succ, ← mul_assoc]
      generalize acc * 10 ^ (natChars (m / 10)).length = X
      omega

theorem parseNat0_natChars (m : Nat) (rest : List Char) (h : digitStart rest = false) :
    parseNat0 (natChars m ++ rest) = some (m, rest) := by
  obtain ⟨d, t, hs⟩ := natChars_shape m
  rw [hs, List.cons_append, parseNat0.eq_def]
  simp only [digitChar_isDigit d, if_true]
  rw [← List.cons_append, ← hs, parseDigitsAux_natChars, Nat.zero_mul, Nat.zero_add,
    parseDigitsAux_stop _ _ h]

theorem parseStrBody_quote (rest : List Char) :
    parseStrBody ('"' :: rest) = some ([], rest) := by
  rw [parseStrBody.eq_def]
  simp

theorem parseStrBody_escaped (c2 : Char) (t : List Char) (h : c2 = '"' ∨ c2 = '\\') :
    parseStrBody ('\\' :: c2 :: t) = (parseStrBody t).map (fun p => (c2 :: p.1, p.2)) := by
  rw [parseStrBody.eq_def]
  have hb : (c2 = '"' || c2 = '\\') = true := by
    rcases h with h | h <;> simp [h]
  simp [hb]

theorem parseStrBody_other (c : Char) (t : List Char) (h1 : ¬ c = '"') (h2 : ¬ c = '\\') :
    parseStrBody (c :: t) = (parseStrBody t).map (fun p => (c :: p.1, p.2)) := by
  rw [parseStrBody.eq_def]
  simp [h1, h2]

theorem parseStrBody_escape (s : List Char) :
    ∀ rest, parseStrBody (escapeStr s ++ '"' :: rest) = some (s, rest) := by
  induction s with
  | nil =>
    intro rest
    have he : escapeStr [] = [] := rfl
    rw [he, List.nil_append, parseStrBody_quote]
  | cons c s ih =>
    intro rest
    have he : escapeStr (c :: s) = escapeChar c ++ escapeStr s := by
      simp [escapeStr]
    rw [he, List.append_assoc]
    by_cases h1 : c = '"'
    · subst h1
      have hc : escapeChar '"' = ['\\', '"'] := rfl
      rw [hc, List.cons_append, List.singleton_append, parseStrBody_escaped _ _ (Or.inl rfl),
        ih rest]
      rfl
    · by_cases h2 : c = '\\'
      · subst h2
        have hc : escapeChar '\\' = ['\\', '\\'] := rfl
        rw [hc, List.cons_append, List.singleton_append, parseStrBody_escaped _ _ (Or.inr rfl),
          ih rest]
        rfl
      · have hc : escapeChar c = [c] := by
          simp [escapeChar, h1, h2]
        rw [hc, List.singleton_append, parseStrBody_other _ _ h1 h2, ih rest]
        rfl

theorem numOk_cons (v : Json) (c : Char) (t : List Char) (h : c.isDigit = false) :
    numOk v (c :: t) = true := by
  cases v <;> simp [numOk, digitStart, h]

theorem fuelNeeded_pos (v : Json) : 0 < fuelNeeded v := by
  cases v <;> simp [fuelNeeded]

theorem fuelArr_pos (es : List Json) : 0 < fuelArr es := by
  rcases es with _ | ⟨e, _ | ⟨e2, es⟩⟩ <;> simp [fuelArr]

theorem fuelObj_pos (ms : List (List Char × Json)) : 0 < fuelObj ms := by
  rcases ms with _ | ⟨⟨k, v⟩, _ | ⟨⟨k2, v2⟩, ms⟩⟩ <;> simp [fuelObj]

theorem dumps_head (v : Json) : ∃ c t, dumps v = c :: t ∧ c ≠ ']' := by
  cases v with
  | null => exact ⟨'n', ['u', 'l', 'l'], by simp [dumps, nullChars], by decide⟩
  | bool b =>
    cases b with
    | false => exact ⟨'f', ['a', 'l', 's', 'e'], by simp [dumps, falseChars], by decide⟩
    | true => exact ⟨'t', ['r', 'u', 'e'], by simp [dumps, trueChars], by decide⟩
  | num n =>
    by_cases h : n < 0
    · exact ⟨'-', natChars n.natAbs, by simp [dumps, intChars, h], by decide⟩
    · obtain ⟨d, t, hs⟩ := natChars_shape n.toNat
      refine ⟨digitChar d, t, by simp [dumps, intChars, h, hs], ?_⟩
      exact isDigit_ne _ _ (digitChar_isDigit d) (by decide)
  | str s => exact ⟨'"', escapeStr s ++ ['"'], by simp [dumps], by decide⟩
  | arr es => exact ⟨'[', dumpsArr es, by simp [dumps], by decide⟩
  | obj ms => exact ⟨'\x7b', dumpsObj ms, by simp [dumps], by decide⟩

theorem parseCore_val_cons (f : Nat) (c : Char) (t : List Char) :
    parseCore (f + 1) .val (c :: t) =
      (if c.isDigit then
        (parseNat0 (c :: t)).map (fun p => (Json.num (p.1 : Int), p.2))
      else if c = '-' then
        (parseNat0 t).map (fun p => (Json.num (-(p.1 : Int)), p.2))
      else if c = '"' then
        (parseStrBody t).map (fun p => (Json.str p.1, p.2))
      else if c = '[' then
        parseCore f .arrTail t
      else if c = '\x7b' then
        parseCore f .objTail t
      else if c = 'n' then
        match t with
        | 'u' :: 'l' :: 'l' :: r => some (Json.null, r)
        | _ => none
      else if c = 't' then
        match t with
        | 'r' :: 'u' :: 'e' :: r => some (Json.bool true, r)
        | _ => none
      else if c = 'f' then
        match t with
        | 'a' :: 'l' :: 's' :: 'e' :: r => some (Json.bool false, r)
        | _ => none
      else none) := rfl

theorem parseCore_arrTail_cons (f : Nat) (c : Char) (t : List Char) :
    parseCore (f + 1) .arrTail (c :: t) =
      (if c = ']' then some (Json.arr [], t)
      else
        match parseCore f .val (c :: t) with
        | none => none
        | some (v, r2) =>
          match r2 with
          | ',' :: r3 =>
            match parseCore f .arrTail r3 with
            | some (Json.arr es, r4) => some (Json.arr (v :: es), r4)
            | _ => none
          | ']' :: r3 => some (Json.arr [v], r3)
          | _ => none) := rfl

theorem parseCore_objTail_cons (f : Nat) (c : Char) (t : List Char) :
    parseCore (f + 1) .objTail (c :: t) =
      (if c = '\x7d' then some (Json.obj [], t)
      else if c = '"' then
        match parseStrBody t with
        | none => none
        | some (k, r2) =>
          match r2 with
          | ':' :: r3 =>
            match parseCore f .val r3 with
            | none => none
            | some (v, r4) =>
              match r4 with
              | ',' :: r5 =>
                match parseCore f .objTail r5 with
                | some (Json.obj ms, r6) => some (Json.obj ((k, v) :: ms), r6)
                | _ => none
              | '\x7d' :: r5 => some (Json.obj [(k, v)], r5)
              | _ => none
          | _ => none
      else none) := rfl

theorem parseCore_arrTail_single (f : Nat) (c : Char) (t : List Char) (hne : c ≠ ']')
    (v : Json) (r3 : List Char)
    (hp : parseCore f .val (c :: t) = some (v, ']' :: r3)) :
    parseCore (f + 1) .arrTail (c :: t) = some (Json.arr [v], r3) := by
  rw [parseCore_arrTail_cons, if_neg hne, hp]
  rfl

theorem parseCore_arrTail_more (f : Nat) (c : Char) (t : List Char) (hne : c ≠ ']')
    (v : Json) (r3 r4 : List Char) (es : List Json)
    (hp : parseCore f .val (c :: t) = some (v, ',' :: r3))
    (hq : parseCore f .arrTail r3 = some (Json.arr es, r4)) :
    parseCore (f + 1) .arrTail (c :: t) = some (Json.arr (v :: es), r4) := by
  rw [parseCore_arrTail_cons, if_neg hne, hp]
  change (match parseCore f .arrTail r3 with
    | some (Json.arr es2, r5) => some (Json.arr (v :: es2), r5)
    | _ => none) = some (Json.arr (v :: es), r4)
  rw [hq]

theorem parseCore_objTail_single (f : Nat) (t : List Char) (k : List Char)
    (r3 : List Char) (v : Json) (r5 : List Char)
    (hs : parseStrBody t = some (k, ':' :: r3))
    (hv : parseCore f .val r3 = some (v, '\x7d' :: r5)) :
    parseCore (f + 1) .objTail ('"' :: t) = some (Json.obj [(k, v)], r5) := by
  rw [parseCore_objTail_cons, if_neg (by decide), if_pos rfl, hs]
  change (match parseCore f .val r3 with
    | none => none
    | some (v2, r4) =>
      match r4 with
      | ',' :: r6 =>
        match parseCore f .objTail r6 with
        | some (Json.obj ms, r7) => some (Json.obj ((k, v2) :: ms), r7)
        | _ => none
      | '\x7d' :: r6 => some (Json.obj [(k, v2)], r6)
      | _ => none) = some (Json.obj [(k, v)], r5)
  rw [hv]
  rfl

theorem parseCore_objTail_more (f : Nat) (t : List Char) (k : List Char)
    (r3 : List Char) (v : Json) (r5 : List Char)
    (ms : List (List Char × Json)) (r6 : List Char)
    (hs : parseStrBody t = some (k, ':' :: r3))
    (hv : parseCore f .val r3 = some (v, ',' :: r5))
    (ho : parseCore f .objTail r5 = some (Json.obj ms, r6)) :
    parseCore (f + 1) .objTail ('"' :: t) = some (Json.obj ((k, v) :: ms), r6) := by
  rw [parseCore_objTail_cons, if_neg (by decide), if_pos rfl, hs]
  change (match parseCore f .val r3 with
    | none => none
    | some (v2, r4) =>
      match r4 with
      | ',' :: r7 =>
        match parseCore f .objTail r7 with
        | some (Json.obj ms2, r8) => some (Json.obj ((k, v2) :: ms2), r8)
        | _ => none
      | '\x7d' :: r7 => some (Json.obj [(k, v2)], r7)
      | _ => none) = some (Json.obj ((k, v) :: ms), r6)
  rw [hv]
  change (match parseCore f .objTail r5 with
    | some (Json.obj ms2, r8) => some (Json.obj ((k, v) :: ms2), r8)
    | _ => none) = some (Json.obj ((k, v) :: ms), r6)
  rw [ho]

theorem parseCore_dumps (fuel : Nat) :
    (∀ v rest, fuelNeeded v ≤ fuel → numOk v rest = true →
      parseCore fuel .val (dumps v ++ rest) = some (v, rest)) ∧
    (∀ es rest, fuelArr es ≤ fuel →
      parseCore fuel .arrTail (dumpsArr es ++ rest) = some (Json.arr es, rest)) ∧
    (∀ ms rest, fuelObj ms ≤ fuel →
      parseCore fuel .objTail (dumpsObj ms ++ rest) = some (Json.obj ms, rest)) := by
  induction fuel with
  | zero =>
    refine ⟨?_, ?_, ?_⟩
    · intro v rest hf _
      exact absurd hf (by have := fuelNeeded_pos v; omega)
    · intro es rest hf
      exact absurd hf (by have := fuelArr_pos es; omega)
    · intro ms rest hf
      exact absurd hf (by have := fuelObj_pos ms; omega)
  | succ f ih =>
    obtain ⟨ihV, ihA, ihO⟩ := ih
    refine ⟨?_, ?_, ?_⟩
    · intro v rest hf hnum
      cases v with
      | null =>
        have hd : dumps Json.null = ['n', 'u', 'l', 'l'] := by simp [dumps, nullChars]
        rw [hd]
        rfl
      | bool b =>
        cases b with
        | false =>
          have hd : dumps (Json.bool false) = ['f', 'a', 'l', 's', 'e'] := by
            simp [dumps, falseChars]
          rw [hd]
          rfl
        | true =>
          have hd : dumps (Json.bool true) = ['t', 'r', 'u', 'e'] := by
            simp [dumps, trueChars]
          rw [hd]
          rfl
      | num n =>
        have hrest : digitStart rest = false := by
          simpa [numOk] using hnum
        by_cases hneg : n < 0
        · have hd : dumps (Json.num n) = '-' :: natChars n.natAbs := by
            simp [dumps, intChars, hneg]
          rw [hd, List.cons_append, parseCore_val_cons, if_neg (by decide), if_pos rfl,
            parseNat0_natChars _ _ hrest]
          have hcast : -((n.natAbs : Nat) : Int) = n := by omega
          simp only [Option.map_some']
          rw [hcast]
        · obtain ⟨d, t, hs⟩ := natChars_shape n.toNat
          have hd : dumps (Json.num n) = natChars n.toNat := by
            simp [dumps, intChars, hneg]
          rw [hd, hs, List.cons_append, parseCore_val_cons,
            if_pos (of_decide_eq_true (by rw [decide_eq_true_eq]; exact digitChar_isDigit d)),
            ← List.cons_append, ← hs, parseNat0_natChars _ _ hrest]
          have hcast : ((n.toNat : Nat) : Int) = n := by omega
          simp [hcast]
      | str s =>
        have hd : dumps (Json.str s) = '"' :: (escapeStr s ++ ['"']) := by simp [dumps]
        rw [hd, List.cons_append, List.append_assoc, List.singleton_append, parseCore_val_cons,
          if_neg (by decide), if_neg (by decide), if_pos rfl, parseStrBody_escape]
        rfl
      | arr es =>
        have hd : dumps (Json.arr es) = '[' :: dumpsArr es := by simp [dumps]
        have hfa : fuelArr es ≤ f := by
          simp only [fuelNeeded] at hf
          omega
        rw [hd, List.cons_append, parseCore_val_cons, if_neg (by decide), if_neg (by decide),
          if_neg (by decide), if_pos rfl]
        exact ihA es rest hfa
      | obj ms =>
        have hd : dumps (Json.obj ms) = '\x7b' :: dumpsObj ms := by simp [dumps]
        have hfo : fuelObj ms ≤ f := by
          simp only [fuelNeeded] at hf
          omega
        rw [hd, List.cons_append, parseCore_val_cons, if_neg (by decide), if_neg (by decide),
          if_neg (by decide), if_neg (by decide), if_pos rfl]
        exact ihO ms rest hfo
    · intro es rest hf
      rcases es with _ | ⟨e, _ | ⟨e2, es⟩⟩
      · have hd : dumpsArr ([] : List Json) = [']'] := by simp [dumpsArr]
        rw [hd, List.singleton_append]
        rfl
      · have hd : dumpsArr [e] = dumps e ++ [']'] := by simp [dumpsArr]
        have hfe : fuelNeeded e ≤ f := by
          simp only [fuelArr] at hf
          omega
        obtain ⟨c, t, hcs, hne⟩ := dumps_head e
        have hp := ihV e (']' :: rest) hfe (numOk_cons _ _ _ (by decide))
        rw [hcs, List.cons_append] at hp
        rw [hd, List.append_assoc, List.singleton_append, hcs, List.cons_append]
        exact parseCore_arrTail_single f c _ hne e rest hp
      · have hd : dumpsArr (e :: e2 :: es) = dumps e ++ ',' :: dumpsArr (e2 :: es) := by
          simp [dumpsArr]
        have hfe : fuelNeeded e ≤ f := by
          simp only [fuelArr] at hf
          omega
        have hfa : fuelArr (e2 :: es) ≤ f := by
          have h2 : fuelArr (e :: e2 :: es) = 1 + fuelNeeded e + fuelArr (e2 :: es) := by
            simp [fuelArr]
          omega
        obtain ⟨c, t, hcs, hne⟩ := dumps_head e
        have hp := ihV e (',' :: (dumpsArr (e2 :: es) ++ rest)) hfe
          (numOk_cons _ _ _ (by decide))
        rw [hcs, List.cons_append] at hp
        have hq := ihA (e2 :: es) rest hfa
        rw [hd, List.append_assoc, List.cons_append, hcs, List.cons_append]
        exact parseCore_arrTail_more f c _ hne e _ rest (e2 :: es) hp hq
    · intro ms rest hf
      rcases ms with _ | ⟨⟨k, v⟩, _ | ⟨⟨k2, v2⟩, ms⟩⟩
      · have hd : dumpsObj ([] : List (List Char × Json)) = ['\x7d'] := by simp [dumpsObj]
        rw [hd, List.singleton_append]
        rfl
      · have hd : dumpsObj [(k, v)] =
            '"' :: (escapeStr k ++ '"' :: ':' :: (dumps v ++ ['\x7d'])) := by
          simp [dumpsObj]
        have hfv : fuelNeeded v ≤ f := by
          simp only [fuelObj] at hf
          omega
        have hv := ihV v ('\x7d' :: rest) hfv (numOk_cons _ _ _ (by decide))
        have hs := parseStrBody_escape k (':' :: (dumps v ++ '\x7d' :: rest))
        rw [hd]
        simp only [List.cons_append, List.append_assoc, List.singleton_append]
        exact parseCore_objTail_single f _ k _ v rest hs hv
      · have hd : dumpsObj ((k, v) :: (k2, v2) :: ms) =
            '"' :: (escapeStr k ++ '"' :: ':' ::
              (dumps v ++ ',' :: dumpsObj ((k2, v2) :: ms))) := by
          simp [dumpsObj]
        have hfv : fuelNeeded v ≤ f := by
          simp only [fuelObj] at hf
          omega
        have hfo : fuelObj ((k2, v2) :: ms) ≤ f := by
          have h2 : fuelObj ((k, v) :: (k2, v2) :: ms) =
              1 + fuelNeeded v + fuelObj ((k2, v2) :: ms) := by
            simp [fuelObj]
          omega
        have hv := ihV v (',' :: (dumpsObj ((k2, v2) :: ms) ++ rest)) hfv
          (numOk_cons _ _ _ (by decide))
        have ho := ihO ((k2, v2) :: ms) rest hfo
        have hs := parseStrBody_escape k
          (':' :: (dumps v ++ ',' :: (dumpsObj ((k2, v2) :: ms) ++ rest)))
        rw [hd]
        simp only [List.cons_append, List.append_assoc, List.singleton_append]
        exact parseCore_objTail_more f _ k _ v _ ((k2, v2) :: ms) rest hs hv ho

theorem natChars_ne_nil (m : Nat) : natChars m ≠ [] := by
  obtain ⟨d, t, hs⟩ := natChars_shape m
  simp [hs]

mutual

theorem fuelNeeded_le_dumps : ∀ v : Json, fuelNeeded v ≤ (dumps v).length
  | .null => by simp [fuelNeeded, dumps, nullChars]
  | .bool b => by cases b <;> simp [fuelNeeded, dumps, trueChars, falseChars]
  | .num n => by
    have h1 : (intChars n).length ≥ 1 := by
      unfold intChars
      by_cases h : n < 0
      · simp [h]
      · simp only [h, if_false]
        cases hc : natChars n.toNat with
        | nil => exact absurd hc (natChars_ne_nil _)
        | cons c t => simp
    simp only [fuelNeeded, dumps]
    omega
  | .str s => by simp [fuelNeeded, dumps]
  | .arr es => by
    have h := fuelArr_le_dumpsArr es
    simp only [fuelNeeded, dumps, List.length_cons]
    omega
  | .obj ms => by
    have h := fuelObj_le_dumpsObj ms
    simp only [fuelNeeded, dumps, List.length_cons]
    omega

theorem fuelArr_le_dumpsArr : ∀ es : List Json, fuelArr es ≤ (dumpsArr es).length
  | [] => by simp [fuelArr, dumpsArr]
  | [e] => by
    have h := fuelNeeded_le_dumps e
    simp only [fuelArr, dumpsArr, List.length_append, List.length_singleton]
    omega
  | e :: e2 :: es => by
    have h1 := fuelNeeded_le_dumps e
    have h2 := fuelArr_le_dumpsArr (e2 :: es)
    have hu1 : fuelArr (e :: e2 :: es) = 1 + fuelNeeded e + fuelArr (e2 :: es) := by
      simp [fuelArr]
    have hu2 : dumpsArr (e :: e2 :: es) = dumps e ++ ',' :: dumpsArr (e2 :: es) := by
      simp [dumpsArr]
    rw [hu1, hu2]
    simp only [List.length_append, List.length_cons]
    omega

theorem fuelObj_le_dumpsObj : ∀ ms : List (List Char × Json), fuelObj ms ≤ (dumpsObj ms).length
  | [] => by simp [fuelObj, dumpsObj]
  | [(k, v)] => by
    have h := fuelNeeded_le_dumps v
    simp only [fuelObj, dumpsObj, List.length_cons, List.length_append,
      List.length_singleton]
    omega
  | (k, v) :: (k2, v2) :: ms => by
    have h1 := fuelNeeded_le_dumps v
    have h2 := fuelObj_le_dumpsObj ((k2, v2) :: ms)
    have hu1 : fuelObj ((k, v) :: (k2, v2) :: ms) =
        1 + fuelNeeded v + fuelObj ((k2, v2) :: ms) := by
      simp [fuelObj]
    have hu2 : dumpsObj ((k, v) :: (k2, v2) :: ms) =
        '"' :: escapeStr k ++ '"' :: ':' :: dumps v ++ ',' :: dumpsObj ((k2, v2) :: ms) := by
      simp [dumpsObj]
    rw [hu1, hu2]
    simp only [List.length_append, List.length_cons]
    omega

end

theorem numOk_nil (v : Json) : numOk v [] = true := by
  cases v <;> simp [numOk, digitStart]

/-- Round trip of the modelled `json` module: parsing the serialization of
any JSON value recovers exactly that value. -/
theorem loads_dumps (v : Json) : loads (dumps v) = some v := by
  have h := (parseCore_dumps ((dumps v).length + 1)).1 v []
    (by have := fuelNeeded_le_dumps v; omega) (numOk_nil v)
  rw [List.append_nil] at h
  unfold loads
  rw [h]

theorem underPath_self (p : FsPath) : underPath p p = true := by
  induction p with
  | nil => rfl
  | cons a t ih =>
    simp only [underPath, List.isPrefixOf] at ih ⊢
    simp [ih]

/-! ## The claims -/

/-- C1, counterexample: cell-5 of the build notebook deletes the previous
run's output directory through `os.path.exists`/`shutil.rmtree` — a
filesystem-mutating action that is neither a call into the listed external
libraries nor a print/visualization — and cell-13 defines the notebook's
own function `read_json_dict`; so not every code cell is only
external-library calls and printing. -/
theorem C1_counterexample :
    (bCell5 ∈ allCells ∧ cellFollowsSpecText bCell5 = false) ∧
    (bCell13 ∈ allCells ∧ cellFollowsSpecText bCell13 = false) := by
  decide

/-- C1, amended: every code cell of the material either calls into an
external library or prints/visualizes results, except that the three
build-setup cells additionally delete the previous run's output directory
behind an `os.path.exists` guard, and cell-13 defines the four-line
`read_json_dict` helper; no other function, data structure or
filesystem-mutating behaviour is defined anywhere. -/
theorem C1_theorem :
    (allCells.all fun c =>
      c.calls.all (fun a => externalLibCall a || printsOrVisualizesCall a ||
        a == ApiCall.os_path_exists_chk || a == ApiCall.shutil_rmtree_del) &&
      (!c.definesFunction || c.id == "cell-13")) = true := by
  decide

/-- C2, counterexample: `cfg_estimates` (cell-5) sets the field
`mvau_wwidth_max`, which is not in the spec's recognized-field list, so not
every configuration sets only recognized fields. -/
theorem C2_counterexample :
    cfg_estimates_fields ∈ allConfigFieldLists ∧
    CfgField.mvau_wwidth_max ∈ cfg_estimates_fields ∧
    CfgField.mvau_wwidth_max ∉ recognizedFields := by
  decide

/-- C2, amended: every `DataflowBuildConfig` constructed in the material
sets only fields from the spec's recognized list plus `mvau_wwidth_max`
(set by all three configurations) and `shell_flow_type` (set only by the
bitfile configuration of cell-33). -/
theorem C2_theorem :
    (allConfigFieldLists.all fun fs =>
      fs.all fun f => recognizedFields.contains f ||
        f == CfgField.mvau_wwidth_max || f == CfgField.shell_flow_type) = true ∧
    cfg_estimates_fields.contains CfgField.shell_flow_type = false ∧
    cfg_stitched_ip_fields.contains CfgField.shell_flow_type = false := by
  decide

/-- C3: no code cell of either notebook contains an exception handler, and
every cell that shows a `build_dataflow_cfg` invocation shows it ending in
the "Completed successfully" state. -/
theorem C3_theorem :
    (allCells.all fun c => !c.hasTryExcept) = true ∧
    (allCells.all fun c => !c.showsBuildInvocation || c.outputCompletedSuccessfully) = true := by
  decide

/-- C4: in the import notebook each staged call occurs exactly once, and
the stages run in the order load model (`get_test_model`), export
(`export_finn_onnx`), wrap (`ModelWrapper`), transform (`InferShapes` then
`FoldConstants`), execute (`execute_onnx`), report (`np.isclose`); no later
stage runs before an earlier one. -/
theorem C4_theorem :
    countOf .get_test_model (callSeq importCells) = 1 ∧
    countOf .export_finn_onnx (callSeq importCells) = 1 ∧
    countOf .modelWrapper_init (callSeq importCells) = 1 ∧
    countOf .transform_InferShapes (callSeq importCells) = 1 ∧
    countOf .transform_FoldConstants (callSeq importCells) = 1 ∧
    countOf .execute_onnx (callSeq importCells) = 1 ∧
    countOf .np_isclose (callSeq importCells) = 1 ∧
    posOf .get_test_model (callSeq importCells) <
      posOf .export_finn_onnx (callSeq importCells) ∧
    posOf .export_finn_onnx (callSeq importCells) <
      posOf .modelWrapper_init (callSeq importCells) ∧
    posOf .modelWrapper_init (callSeq importCells) <
      posOf .transform_InferShapes (callSeq importCells) ∧
    posOf .transform_InferShapes (callSeq importCells) <
      posOf .transform_FoldConstants (callSeq importCells) ∧
    posOf .transform_FoldConstants (callSeq importCells) <
      posOf .execute_onnx (callSeq importCells) ∧
    posOf .execute_onnx (callSeq importCells) <
      posOf .np_isclose (callSeq importCells) := by
  decide

/-- C5: in the recorded estimate-only build reports, the network
performance report carries critical-path cycles, max cycles, throughput
and latency; the layer-cycle report maps exactly the four layers to their
cycle counts; and the layer-resource report carries BRAM, LUT, URAM and
DSP figures for each of the four layers. -/
theorem C5_theorem :
    (["critical_path_cycles", "max_cycles", "estimated_throughput_fps",
      "estimated_latency_ns"].all fun k =>
        (estimate_network_performance.lookup k).isSome) = true ∧
    estimate_layer_cycles.map Prod.fst = streamingLayers ∧
    (streamingLayers.all fun layer =>
      match estimate_layer_resources.lookup layer with
      | some entry =>
        ["BRAM_18K", "LUT", "URAM", "DSP"].all fun k => (entry.lookup k).isSome
      | none => false) = true := by
  decide

/-- C6: the numerals 1562500.0 (throughput estimate) and 643 (RTL-sim
cycle count) occur in no cell's source; they occur in the recorded
report-file outputs of the external builds; and the only function the
material defines is `read_json_dict` (cell-13), which computes nothing. -/
theorem C6_theorem :
    (allCells.all fun c =>
      !(c.srcNumerals.contains "1562500.0") && !(c.srcNumerals.contains "643")) = true ∧
    estimate_network_performance.lookup "estimated_throughput_fps" = some "1562500.0" ∧
    rtlsim_performance.lookup "cycles" = some "643" ∧
    (allCells.all fun c => !c.definesFunction || c.id == "cell-13") = true := by
  decide

/-- C7, counterexample: cell-8 of the build notebook runs the shell escape
`! ls output_estimates_only`, which Jupyter executes in a subshell — a
subprocess created by the material's own code — so the material does not
create zero subprocesses. -/
theorem C7_counterexample :
    bCell8 ∈ allCells ∧ cellConcurrencyFree bCell8 = false := by
  decide

/-- C7, amended: the material's own code imports no concurrency module and
uses no asynchronous construct, and the only subprocesses it creates are
the blocking Jupyter `!` shell escapes used to list and dump the produced
files, each completing before the next operation begins. -/
theorem C7_theorem :
    (allCells.all fun c =>
      c.imports.all (fun m => !(concurrencyModules.contains m)) &&
      !c.usesAsync &&
      c.calls.all (fun a => !spawnsSubprocessCall a || printsOrVisualizesCall a)) = true := by
  decide

/-- C8: for every file whose contents are the JSON serialization of a
dictionary `d`, `read_json_dict` returns `d`, and it leaves the filesystem
unchanged (the file is opened for reading only). -/
theorem C8_theorem (fs : TextFS) (filename : String) (d : List (List Char × Json))
    (h : fs filename = some (dumps (Json.obj d))) :
    (read_json_dict fs filename).2 = some (Json.obj d) ∧
    (read_json_dict fs filename).1 = fs := by
  constructor
  · show (fs filename).bind loads = some (Json.obj d)
    rw [h]
    show loads (dumps (Json.obj d)) = some (Json.obj d)
    exact loads_dumps _
  · rfl

/-- C8, witness: a filesystem holding the serialization of the concrete
one-entry dictionary satisfies the hypothesis, and `read_json_dict`
recovers that dictionary from it, leaving the filesystem unchanged. -/
theorem C8_witness :
    witnessFS "report.json" = some (dumps (Json.obj witnessDict)) ∧
    ((read_json_dict witnessFS "report.json").2 = some (Json.obj witnessDict) ∧
      (read_json_dict witnessFS "report.json").1 = witnessFS) :=
  ⟨rfl, C8_theorem witnessFS "report.json" witnessDict rfl⟩

/-- C9, counterexample: when a regular file (not a directory) occupies the
output path, `os.path.exists` is true and `shutil.rmtree` raises
`NotADirectoryError`, so the cleanup block does not succeed in every state
in which the directory does not exist beforehand. -/
theorem C9_counterexample :
    cleanupBlock fileAtOutputDir ["output_estimates_only"] = none := by
  rfl

/-- C9, amended: whenever the output path is absent or is a directory, the
cleanup block `if os.path.exists(d): shutil.rmtree(d)` succeeds without
raising, establishes that the path no longer exists, and is idempotent:
running it again returns the same filesystem. -/
theorem C9_theorem (fs : DirFS) (p : FsPath)
    (h : fs p = none ∨ fs p = some FsNode.dir) :
    ∃ fs2, cleanupBlock fs p = some fs2 ∧ fs2 p = none ∧
      cleanupBlock fs2 p = some fs2 := by
  rcases h with h | h
  · refine ⟨fs, ?_, h, ?_⟩
    · unfold cleanupBlock os_path_exists
      rw [h]
      rfl
    · unfold cleanupBlock os_path_exists
      rw [h]
      rfl
  · refine ⟨fun q => if underPath p q then none else fs q, ?_, ?_, ?_⟩
    · unfold cleanupBlock os_path_exists shutil_rmtree
      rw [h]
      rfl
    · simp [underPath_self p]
    · have h2 : os_path_exists (fun q => if underPath p q then none else fs q) p = false := by
        unfold os_path_exists
        simp [underPath_self p]
      unfold cleanupBlock
      rw [h2]
      rfl

/-- C9, witness: on the concrete filesystem in which the output path is a
directory, the hypothesis holds and the cleanup block deletes it, leaving
a state on which a second run is a no-op. -/
theorem C9_witness :
    (dirAtOutputDir ["output_estimates_only"] = none ∨
      dirAtOutputDir ["output_estimates_only"] = some FsNode.dir) ∧
    ∃ fs2, cleanupBlock dirAtOutputDir ["output_estimates_only"] = some fs2 ∧
      fs2 ["output_estimates_only"] = none ∧
      cleanupBlock fs2 ["output_estimates_only"] = some fs2 :=
  ⟨Or.inr rfl, C9_theorem dirAtOutputDir ["output_estimates_only"] (Or.inr rfl)⟩
